import Mathlib

/-!
Verification of the replenishment decision engine (apps/svc-forecast).

The Python sources are shallowly embedded over exact rational arithmetic:
Python floats become rationals, Python ints become integers, dictionaries
returned by the engine become structures, and absent dictionary keys become
Option fields.  Calendar dates are modelled as integer day numbers with the
convention that day 0 is a Monday, so that the weekday of day d is d mod 7
exactly as datetime.weekday computes it (0 = Monday .. 6 = Sunday).
Python's round(x, n) is banker's rounding (round half to even), embedded
below as roundHalfEven.  Python's list.sort / sorted are stable sorts; they
are embedded with List.insertionSort over the same key relation, which is
stable and therefore has the same input-output behaviour.
-/

/-! ## Python rounding: round(x, 2) and round(x, 1) -/

/-- Round-half-to-even on rationals, the semantics of Python round(x). -/
def roundHalfEven (q : ℚ) : ℤ :=
  if q - ⌊q⌋ < 1/2 then ⌊q⌋
  else if q - ⌊q⌋ > 1/2 then ⌊q⌋ + 1
  else if ⌊q⌋ % 2 = 0 then ⌊q⌋ else ⌊q⌋ + 1

/-- Python round(x, 2). -/
def pyRound2 (q : ℚ) : ℚ := (roundHalfEven (q * 100) : ℚ) / 100

/-- Python round(x, 1). -/
def pyRound1 (q : ℚ) : ℚ := (roundHalfEven (q * 10) : ℚ) / 10

theorem roundHalfEven_intCast (k : ℤ) : roundHalfEven (k : ℚ) = k := by
  unfold roundHalfEven
  norm_num

theorem roundHalfEven_le_ceil (q : ℚ) : roundHalfEven q ≤ ⌈q⌉ := by
  unfold roundHalfEven
  have hfc : ⌊q⌋ ≤ ⌈q⌉ := Int.floor_le_ceil q
  have hstep : q - ⌊q⌋ > 0 → ⌊q⌋ + 1 ≤ ⌈q⌉ := by
    intro hpos
    have h1 : (⌊q⌋ : ℚ) < q := by linarith
    have h2 : q ≤ (⌈q⌉ : ℚ) := Int.le_ceil q
    have h3 : (⌊q⌋ : ℚ) < (⌈q⌉ : ℚ) := lt_of_lt_of_le h1 h2
    exact_mod_cast Int.add_one_le_of_lt (by exact_mod_cast h3)
  split_ifs with h1 h2 h3
  · exact hfc
  · exact hstep (by linarith)
  · exact hfc
  · exact hstep (by linarith)

theorem pyRound2_hundredth (k : ℤ) : pyRound2 ((k : ℚ) / 100) = (k : ℚ) / 100 := by
  unfold pyRound2
  rw [show ((k : ℚ) / 100 * 100) = (k : ℚ) by ring, roundHalfEven_intCast]

theorem pyRound2_le_of_le_intCast (q : ℚ) (k : ℤ) (h : q ≤ (k : ℚ)) : pyRound2 q ≤ (k : ℚ) := by
  unfold pyRound2
  have h1 : roundHalfEven (q * 100) ≤ ⌈q * 100⌉ := roundHalfEven_le_ceil _
  have h2 : ⌈q * 100⌉ ≤ ⌈((k : ℚ) * 100)⌉ := Int.ceil_mono (by nlinarith)
  have h3 : ⌈((k : ℚ) * 100)⌉ = k * 100 := by
    rw [show ((k : ℚ) * 100) = ((k * 100 : ℤ) : ℚ) by push_cast; ring, Int.ceil_intCast]
  have h4 : roundHalfEven (q * 100) ≤ k * 100 := by omega
  have h5 : ((roundHalfEven (q * 100) : ℤ) : ℚ) ≤ ((k * 100 : ℤ) : ℚ) := by exact_mod_cast h4
  push_cast at h5
  linarith

/-! ## CoverageCalculator (coverage_calculator.py)

MAX_COVERAGE_DAYS caps day horizons; _safe_future_date turns a day count
into a stockout date (modelled by its day offset from now, since the
absolute datetime.now() is ambient state) or None when at or past the cap.
Human-readable message strings are not modelled; the status enum carries
the same case distinction. -/

def MAX_COVERAGE_DAYS : ℚ := 365

def safe_future_date (days : ℚ) : Option ℚ :=
  if days ≥ MAX_COVERAGE_DAYS then none else some days

inductive CoverageStatusE where
  | NO_DEMAND | CRITICAL | URGENT | LOW | GOOD | OVERSTOCKED
deriving DecidableEq

structure CoverageStatus where
  current_stock : ℚ
  daily_demand : ℚ
  days_remaining : ℚ
  stockout_date : Option ℚ
  status : CoverageStatusE
deriving DecidableEq

def calculate_current_coverage (current_stock daily_demand : ℚ) : CoverageStatus :=
  if daily_demand ≤ 0 ∨ daily_demand < 0.001 then
    { current_stock := current_stock, daily_demand := daily_demand,
      days_remaining := MAX_COVERAGE_DAYS, stockout_date := none,
      status := .NO_DEMAND }
  else
    let days_remaining := current_stock / daily_demand
    let days_remaining := min days_remaining MAX_COVERAGE_DAYS
    let stockout_date := safe_future_date days_remaining
    let status : CoverageStatusE :=
      if days_remaining < 1 then .CRITICAL
      else if days_remaining < 3 then .URGENT
      else if days_remaining < 7 then .LOW
      else if days_remaining < 30 then .GOOD
      else .OVERSTOCKED
    { current_stock := current_stock, daily_demand := daily_demand,
      days_remaining := pyRound2 days_remaining, stockout_date := stockout_date,
      status := status }

structure OrderQuantityResult where
  order_quantity : ℤ
  target_coverage_days : ℤ
  current_stock : ℚ
  final_stock : ℚ
  actual_coverage_days : ℚ
  includes_safety_stock : Bool
  safety_factor : ℚ
  daily_demand : ℚ
deriving DecidableEq

def calculate_order_quantity (current_stock daily_demand : ℚ) (target_coverage_days : ℤ)
    (include_safety_stock : Bool) (safety_factor : ℚ) : OrderQuantityResult :=
  if daily_demand ≤ 0 ∨ daily_demand < 0.001 then
    { order_quantity := 0, target_coverage_days := target_coverage_days,
      current_stock := current_stock, final_stock := current_stock,
      actual_coverage_days := MAX_COVERAGE_DAYS,
      includes_safety_stock := include_safety_stock,
      safety_factor := if include_safety_stock then safety_factor else 1,
      daily_demand := 0 }
  else
    let required_stock := daily_demand * (target_coverage_days : ℚ)
    let required_stock :=
      if include_safety_stock then required_stock * safety_factor else required_stock
    let order_quantity : ℤ := max 0 ⌈required_stock - current_stock⌉
    let final_stock := current_stock + (order_quantity : ℚ)
    let actual_coverage := final_stock / daily_demand
    { order_quantity := order_quantity, target_coverage_days := target_coverage_days,
      current_stock := current_stock, final_stock := final_stock,
      actual_coverage_days := pyRound2 actual_coverage,
      includes_safety_stock := include_safety_stock,
      safety_factor := if include_safety_stock then safety_factor else 1,
      daily_demand := daily_demand }

/-! ## RiskAssessor (supplier_engine.py)

The no-demand return omits the days_until_delivery and safe_days_needed
keys, hence the Option fields. -/

inductive RiskLevel where
  | NONE | LOW | MEDIUM | HIGH | CRITICAL
deriving DecidableEq

structure Risk where
  level : RiskLevel
  score : ℚ
  days_remaining : ℚ
  days_until_delivery : Option ℤ
  safe_days_needed : Option ℚ
deriving DecidableEq

def calculate_risk (current_stock daily_demand : ℚ) (days_until_delivery : ℤ)
    (safety_factor : ℚ) : Risk :=
  if daily_demand ≤ 0 then
    { level := .NONE, score := 0, days_remaining := 999,
      days_until_delivery := none, safe_days_needed := none }
  else
    let days_remaining := current_stock / daily_demand
    let safe_days_needed := (days_until_delivery : ℚ) * safety_factor
    if days_remaining ≥ safe_days_needed then
      { level := .NONE, score := 0, days_remaining := days_remaining,
        days_until_delivery := some days_until_delivery,
        safe_days_needed := some safe_days_needed }
    else if days_remaining ≥ (days_until_delivery : ℚ) then
      { level := .LOW, score := 0.3, days_remaining := days_remaining,
        days_until_delivery := some days_until_delivery,
        safe_days_needed := some safe_days_needed }
    else if days_remaining ≥ (days_until_delivery : ℚ) * 0.7 then
      { level := .MEDIUM, score := 0.6, days_remaining := days_remaining,
        days_until_delivery := some days_until_delivery,
        safe_days_needed := some safe_days_needed }
    else if days_remaining ≥ (days_until_delivery : ℚ) * 0.4 then
      { level := .HIGH, score := 0.8, days_remaining := days_remaining,
        days_until_delivery := some days_until_delivery,
        safe_days_needed := some safe_days_needed }
    else
      { level := .CRITICAL, score := 1, days_remaining := days_remaining,
        days_until_delivery := some days_until_delivery,
        safe_days_needed := some safe_days_needed }

/-! ## Claims C1, C2, C3 -/

/-- Claim C1, as frozen, asserts that calculate_risk(20, 8, 3, 1.2) yields risk
level HIGH with score 0.8.  It does not: days_remaining = 2.5 and 0.7 times 3
is 2.1, so the MEDIUM rung (days_remaining at least 2.1) fires first. -/
theorem claim_C1_counterexample :
    (calculate_risk 20 8 3 1.2).level ≠ RiskLevel.HIGH ∧
    (calculate_risk 20 8 3 1.2).score ≠ 0.8 := by
  have h : (calculate_risk 20 8 3 1.2).level = RiskLevel.MEDIUM ∧
      (calculate_risk 20 8 3 1.2).score = 0.6 := by
    norm_num [calculate_risk]
  refine ⟨?_, ?_⟩
  · rw [h.1]; decide
  · rw [h.2]; norm_num

/-- Claim C1 amended: for current_stock=20, daily_demand=8, days_until_delivery=3,
safety_factor=1.2, calculate_risk returns days_remaining=2.5, safe_days_needed=3.6,
risk level MEDIUM and risk score 0.6. -/
theorem claim_C1_amended :
    (calculate_risk 20 8 3 1.2).days_remaining = 2.5 ∧
    (calculate_risk 20 8 3 1.2).safe_days_needed = some 3.6 ∧
    (calculate_risk 20 8 3 1.2).level = RiskLevel.MEDIUM ∧
    (calculate_risk 20 8 3 1.2).score = 0.6 := by
  norm_num [calculate_risk]

/-- Claim C2, as frozen, includes daily_demand exactly 0.001 in the NO_DEMAND
case.  The guard is demand <= 0 or demand < 0.001, both false at exactly 0.001,
so stock 1 / demand 0.001 = 1000 days, capped to 365, status OVERSTOCKED. -/
theorem claim_C2_counterexample :
    (calculate_current_coverage 1 0.001).status = CoverageStatusE.OVERSTOCKED ∧
    (calculate_current_coverage 1 0.001).status ≠ CoverageStatusE.NO_DEMAND := by
  have h : (calculate_current_coverage 1 0.001).status = CoverageStatusE.OVERSTOCKED := by
    norm_num [calculate_current_coverage, safe_future_date, MAX_COVERAGE_DAYS]
  refine ⟨h, ?_⟩
  rw [h]; decide

/-- Claim C2 amended: for every current_stock and every daily_demand strictly
less than 0.001, calculate_current_coverage returns status NO_DEMAND,
days_remaining = 365, and no stockout date. -/
theorem claim_C2_amended (current_stock daily_demand : ℚ) (h : daily_demand < 0.001) :
    calculate_current_coverage current_stock daily_demand =
      { current_stock := current_stock, daily_demand := daily_demand,
        days_remaining := 365, stockout_date := none, status := .NO_DEMAND } := by
  unfold calculate_current_coverage
  rw [if_pos (Or.inr h)]
  rfl

theorem claim_C2_witness :
    (0 : ℚ) < 0.001 ∧
    calculate_current_coverage 7 0 =
      { current_stock := 7, daily_demand := 0, days_remaining := 365,
        stockout_date := none, status := .NO_DEMAND } :=
  ⟨by norm_num, claim_C2_amended 7 0 (by norm_num)⟩

/-- Claim C3, as frozen, asserts every days_remaining from both public
operations is capped at 365.  RiskAssessor.calculate_risk is not capped: at
zero demand it returns the sentinel 999 > 365. -/
theorem claim_C3_counterexample :
    (calculate_risk 0 0 3 1.2).days_remaining = 999 ∧
    ¬ (calculate_risk 0 0 3 1.2).days_remaining ≤ MAX_COVERAGE_DAYS := by
  norm_num [calculate_risk, MAX_COVERAGE_DAYS]

theorem calculate_risk_days_remaining (s d : ℚ) (del : ℤ) (sf : ℚ) :
    (calculate_risk s d del sf).days_remaining = if d ≤ 0 then 999 else s / d := by
  by_cases h : d ≤ 0
  · simp [calculate_risk, h]
  · simp only [calculate_risk, if_neg h]
    split_ifs <;> rfl

/-- Claim C3 amended: calculate_current_coverage always caps days_remaining at
MAX_COVERAGE_DAYS = 365; RiskAssessor.calculate_risk does not cap its
days_remaining, which is the sentinel 999 when demand is nonpositive and
stock/demand (arbitrarily large) otherwise. -/
theorem claim_C3_amended :
    (∀ current_stock daily_demand : ℚ,
        (calculate_current_coverage current_stock daily_demand).days_remaining ≤
          MAX_COVERAGE_DAYS) ∧
    (∀ (current_stock daily_demand : ℚ) (days_until_delivery : ℤ) (safety_factor : ℚ),
        (calculate_risk current_stock daily_demand days_until_delivery
            safety_factor).days_remaining =
          if daily_demand ≤ 0 then 999 else current_stock / daily_demand) := by
  constructor
  · intro s d
    unfold calculate_current_coverage
    split_ifs with h
    · norm_num
    · simp only
      have h365 : min (s / d) MAX_COVERAGE_DAYS ≤ ((365 : ℤ) : ℚ) := by
        have := min_le_right (s / d) MAX_COVERAGE_DAYS
        rw [MAX_COVERAGE_DAYS] at this
        exact_mod_cast this
      have hle := pyRound2_le_of_le_intCast (min (s / d) MAX_COVERAGE_DAYS) 365 h365
      rw [MAX_COVERAGE_DAYS]
      exact_mod_cast hle
  · intro s d del sf
    exact calculate_risk_days_remaining s d del sf

/-! ## OutlierDetector and ForecastEngine.analyze (forecast_engine.py)

detect_zscore in the source computes std = sqrt(variance) and flags indices
with abs(x - mean) / std > threshold, guarded by std == 0.  For a
nonnegative threshold and positive variance that inequality is equivalent
to (x - mean)^2 > threshold^2 * variance, which keeps the embedding in
exact rational arithmetic; the std == 0 guard is exactly variance = 0.
detect_iqr uses numpy percentiles with linear interpolation, which is
rational arithmetic on the sorted copy of the data. -/

def detect_zscore (data : List ℚ) (threshold : ℚ) : List Nat :=
  if data.length < 3 then []
  else
    let mean := data.sum / (data.length : ℚ)
    let variance := (data.map (fun x => (x - mean) ^ 2)).sum / (data.length : ℚ)
    if variance = 0 then []
    else (List.range data.length).filter
      (fun i => decide ((data.getD i 0 - mean) ^ 2 > threshold ^ 2 * variance))

def npPercentile (data : List ℚ) (q : ℚ) : ℚ :=
  let s := List.insertionSort (fun a b : ℚ => a ≤ b) data
  let pos := ((data.length : ℚ) - 1) * q / 100
  let lo := ⌊pos⌋.toNat
  let hi := ⌈pos⌉.toNat
  let vlo := s.getD lo 0
  let vhi := s.getD hi 0
  vlo + (pos - (lo : ℚ)) * (vhi - vlo)

def detect_iqr (data : List ℚ) (multiplier : ℚ) : List Nat :=
  if data.length < 4 then []
  else
    let q1 := npPercentile data 25
    let q3 := npPercentile data 75
    let iqr := q3 - q1
    let lower_bound := q1 - multiplier * iqr
    let upper_bound := q3 + multiplier * iqr
    (List.range data.length).filter
      (fun i => decide (data.getD i 0 < lower_bound) || decide (data.getD i 0 > upper_bound))

/-- The list comprehension keeping the values whose index is not flagged. -/
def removeIndices (data : List ℚ) (outlier_indices : List Nat) : List ℚ :=
  (data.enum.filter (fun p => decide (p.1 ∉ outlier_indices))).map (fun p => p.2)

/-- The detector dispatch of remove_outliers: zscore uses threshold 3.0,
iqr uses multiplier 1.5 (the source defaults), anything else flags
nothing. -/
def flagged_indices (data : List ℚ) (method : String) : List Nat :=
  if method = "zscore" then detect_zscore data 3
  else if method = "iqr" then detect_iqr data 1.5
  else []

/-- The tail of remove_outliers after a detector ran: drop the flagged
indices, but discard the removal when it would keep less than half of the
points. -/
def remove_flagged (data : List ℚ) (outlier_indices : List Nat) : List ℚ × List Nat :=
  let cleaned := removeIndices data outlier_indices
  if (cleaned.length : ℚ) < (data.length : ℚ) * 0.5 then (data, [])
  else (cleaned, outlier_indices)

def remove_outliers (data : List ℚ) (method : String) : List ℚ × List Nat :=
  if data.length < 3 then (data, [])
  else if method = "zscore" then remove_flagged data (detect_zscore data 3)
  else if method = "iqr" then remove_flagged data (detect_iqr data 1.5)
  else (data, [])

/-- Result of ForecastEngine.analyze.  The insufficient-data dictionary
carries the error string, min_required and received.  The ok branch keeps
the artifacts of the outlier-removal step; the downstream statistical
artifacts (classification, trend, decomposition, confidence, forecast,
recommendation) are not modelled since no claim touches them. -/
inductive AnalyzeResult where
  | insufficientData (error : String) (min_required received : ℕ)
  | ok (original_data_points cleaned_data_points : ℕ)
      (outliers_removed : ℕ) (outlier_indices : List ℕ) (cleaned_data : List ℚ)
deriving DecidableEq

def analyze (sales_data : List ℚ) (_dates : Option (List ℤ)) : AnalyzeResult :=
  if sales_data.length < 3 then
    .insufficientData "Insufficient data" 3 sales_data.length
  else
    let cleaned := remove_outliers sales_data "zscore"
    .ok sales_data.length cleaned.1.length cleaned.2.length cleaned.2 cleaned.1

/-! ## Claims C4 and C5 -/

/-- Claim C4 confirmed: for every input series with fewer than 3 observations
(and any dates), ForecastEngine.analyze returns the explicit
insufficient-data result with min_required = 3 and received = the series
length; the embedding is total, so no exception is raised. -/
theorem claim_C4 (sales_data : List ℚ) (dates : Option (List ℤ))
    (h : sales_data.length < 3) :
    analyze sales_data dates =
      .insufficientData "Insufficient data" 3 sales_data.length := by
  unfold analyze
  rw [if_pos h]

theorem claim_C4_witness :
    ([2, 5] : List ℚ).length < 3 ∧
    analyze [2, 5] none = .insufficientData "Insufficient data" 3 2 :=
  ⟨by simp, claim_C4 [2, 5] none (by simp)⟩

theorem removeIndices_nil (data : List ℚ) : removeIndices data [] = data := by
  unfold removeIndices
  simp [List.enum_map_snd]

theorem remove_flagged_eq (data : List ℚ) (idx : List Nat) :
    remove_flagged data idx =
      if ((removeIndices data idx).length : ℚ) < (data.length : ℚ) * 0.5
      then (data, []) else (removeIndices data idx, idx) := rfl

/-- Claim C5 confirmed: remove_outliers returns the original series with an
empty removed-indices list when dropping the flagged indices would discard
more than 50 percent of the points (it never raises), and otherwise returns
the series with exactly the flagged indices removed, for every series and
method. -/
theorem claim_C5 (data : List ℚ) (method : String) :
    remove_outliers data method =
      if ((removeIndices data (flagged_indices data method)).length : ℚ) <
          (data.length : ℚ) * 0.5
      then (data, ([] : List Nat))
      else (removeIndices data (flagged_indices data method),
            flagged_indices data method) := by
  have hnotlt : ∀ n : ℕ, ¬ ((n : ℚ) < (n : ℚ) * 0.5) := by
    intro n hlt
    have h0 : (0 : ℚ) ≤ (n : ℚ) := Nat.cast_nonneg n
    nlinarith
  by_cases h3 : data.length < 3
  · have hfl : flagged_indices data method = [] := by
      unfold flagged_indices
      split_ifs with h1 h2
      · unfold detect_zscore
        rw [if_pos h3]
      · unfold detect_iqr
        rw [if_pos (by omega : data.length < 4)]
      · rfl
    rw [hfl, removeIndices_nil, if_neg (hnotlt data.length)]
    unfold remove_outliers
    rw [if_pos h3]
  · unfold remove_outliers flagged_indices
    rw [if_neg h3]
    by_cases hm1 : method = "zscore"
    · rw [if_pos hm1, if_pos hm1]
      exact remove_flagged_eq data (detect_zscore data 3)
    · rw [if_neg hm1, if_neg hm1]
      by_cases hm2 : method = "iqr"
      · rw [if_pos hm2, if_pos hm2]
        exact remove_flagged_eq data (detect_iqr data 1.5)
      · rw [if_neg hm2, if_neg hm2, removeIndices_nil, if_neg (hnotlt data.length)]

/-! ## BulkOrderCalculator.calculate_volume_discount (coverage_calculator.py)

The source iterates over sorted(discount_tiers, key=min_qty, reverse=True)
and breaks at the first tier with order_quantity >= min_qty; that loop is
the find? over the stable descending sort below. -/

structure DiscountTier where
  min_qty : ℤ
  discount_percent : ℚ
deriving DecidableEq

structure VolumeDiscountResult where
  order_quantity : ℤ
  base_price : ℚ
  discount_percent : ℚ
  discount_amount : ℚ
  final_price : ℚ
  total_cost : ℚ
  total_savings : ℚ
  tier : Option DiscountTier
deriving DecidableEq

def tiersSortedDesc (discount_tiers : List DiscountTier) : List DiscountTier :=
  List.insertionSort (fun a b => b.min_qty ≤ a.min_qty) discount_tiers

def select_tier (order_quantity : ℤ) (discount_tiers : List DiscountTier) :
    Option DiscountTier :=
  (tiersSortedDesc discount_tiers).find? (fun t => decide (order_quantity ≥ t.min_qty))

def calculate_volume_discount (order_quantity : ℤ) (base_price : ℚ)
    (discount_tiers : List DiscountTier) : VolumeDiscountResult :=
  let applicable_tier := select_tier order_quantity discount_tiers
  let applicable_discount := (applicable_tier.map (fun t => t.discount_percent)).getD 0
  let discount_amount := base_price * (applicable_discount / 100)
  let final_price := base_price - discount_amount
  let total_cost := final_price * (order_quantity : ℚ)
  let total_savings := discount_amount * (order_quantity : ℚ)
  { order_quantity := order_quantity, base_price := base_price,
    discount_percent := applicable_discount,
    discount_amount := pyRound2 discount_amount,
    final_price := pyRound2 final_price,
    total_cost := pyRound2 total_cost,
    total_savings := pyRound2 total_savings,
    tier := applicable_tier }

theorem find?_sorted_desc (qty : ℤ) :
    ∀ (l : List DiscountTier), l.Sorted (fun a b => b.min_qty ≤ a.min_qty) →
      ∀ t, l.find? (fun t => decide (qty ≥ t.min_qty)) = some t →
        t ∈ l ∧ t.min_qty ≤ qty ∧
        ∀ t' ∈ l, t'.min_qty ≤ qty → t'.min_qty ≤ t.min_qty := by
  intro l
  induction l with
  | nil => intro _ t ht; simp at ht
  | cons a l ih =>
    intro hs t ht
    by_cases ha : qty ≥ a.min_qty
    · rw [List.find?_cons_of_pos _ (by simpa using ha)] at ht
      cases ht
      refine ⟨List.mem_cons_self a l, ha, ?_⟩
      intro t' ht' _
      rcases List.mem_cons.mp ht' with h | h
      · exact le_of_eq (congrArg DiscountTier.min_qty h)
      · exact List.rel_of_pairwise_cons hs h
    · rw [List.find?_cons_of_neg _ (by simpa using ha)] at ht
      obtain ⟨hmem, happ, hmax⟩ := ih (List.Sorted.of_cons hs) t ht
      refine ⟨List.mem_cons_of_mem a hmem, happ, ?_⟩
      intro t' ht' happ'
      rcases List.mem_cons.mp ht' with h | h
      · exact absurd (h ▸ happ') ha
      · exact hmax t' h happ'

theorem select_tier_spec (qty : ℤ) (tiers : List DiscountTier) :
    (∀ t, select_tier qty tiers = some t →
      t ∈ tiers ∧ t.min_qty ≤ qty ∧
      ∀ t' ∈ tiers, t'.min_qty ≤ qty → t'.min_qty ≤ t.min_qty) ∧
    (select_tier qty tiers = none → ∀ t' ∈ tiers, ¬ t'.min_qty ≤ qty) := by
  have hperm : (tiersSortedDesc tiers).Perm tiers :=
    List.perm_insertionSort _ _
  have hsorted : (tiersSortedDesc tiers).Sorted (fun a b => b.min_qty ≤ a.min_qty) := by
    haveI : IsTotal DiscountTier (fun a b => b.min_qty ≤ a.min_qty) :=
      ⟨fun a b => (le_total b.min_qty a.min_qty)⟩
    haveI : IsTrans DiscountTier (fun a b => b.min_qty ≤ a.min_qty) :=
      ⟨fun _ _ _ hab hbc => le_trans hbc hab⟩
    exact List.sorted_insertionSort _ _
  constructor
  · intro t ht
    obtain ⟨hmem, happ, hmax⟩ := find?_sorted_desc qty _ hsorted t ht
    exact ⟨hperm.mem_iff.mp hmem, happ,
      fun t' ht' happ' => hmax t' (hperm.mem_iff.mpr ht') happ'⟩
  · intro hnone t' ht' happ'
    have := List.find?_eq_none.mp hnone t' (hperm.mem_iff.mpr ht')
    simp at this
    exact absurd happ' (by simpa using this)

/-- Claim C9, as frozen, asserts the result is the same for every permutation
of the tier list.  With two tiers sharing min_qty = 100 the stable descending
sort keeps their input order and the loop picks whichever comes first, so the
two orders give discount 10 vs 20. -/
theorem claim_C9_counterexample :
    ([DiscountTier.mk 100 20, DiscountTier.mk 100 10]).Perm
      [DiscountTier.mk 100 10, DiscountTier.mk 100 20] ∧
    (calculate_volume_discount 150 10
      [DiscountTier.mk 100 10, DiscountTier.mk 100 20]).discount_percent = 10 ∧
    (calculate_volume_discount 150 10
      [DiscountTier.mk 100 20, DiscountTier.mk 100 10]).discount_percent = 20 ∧
    calculate_volume_discount 150 10
        [DiscountTier.mk 100 10, DiscountTier.mk 100 20] ≠
      calculate_volume_discount 150 10
        [DiscountTier.mk 100 20, DiscountTier.mk 100 10] := by
  have h1 : (calculate_volume_discount 150 10
      [DiscountTier.mk 100 10, DiscountTier.mk 100 20]).discount_percent = 10 := by
    norm_num [calculate_volume_discount, select_tier, tiersSortedDesc,
      List.insertionSort, List.orderedInsert, List.find?]
  have h2 : (calculate_volume_discount 150 10
      [DiscountTier.mk 100 20, DiscountTier.mk 100 10]).discount_percent = 20 := by
    norm_num [calculate_volume_discount, select_tier, tiersSortedDesc,
      List.insertionSort, List.orderedInsert, List.find?]
  refine ⟨List.Perm.swap _ _ _, h1, h2, ?_⟩
  intro heq
  have := congrArg VolumeDiscountResult.discount_percent heq
  rw [h1, h2] at this
  norm_num at this

/-- Claim C9 amended: calculate_volume_discount selects a tier achieving the
largest min_qty among tiers with min_qty at most the order quantity (none
when no tier applies), and its result is permutation-invariant provided the
tiers carry pairwise distinct min_qty values; for tiers
[(min_qty 100, discount 10)], order_quantity 150 and base_price 10 it
returns discount_percent 10, final_price 9.0 and total_cost 1350. -/
theorem claim_C9_amended :
    ((calculate_volume_discount 150 10 [DiscountTier.mk 100 10]).discount_percent = 10 ∧
     (calculate_volume_discount 150 10 [DiscountTier.mk 100 10]).final_price = 9 ∧
     (calculate_volume_discount 150 10 [DiscountTier.mk 100 10]).total_cost = 1350) ∧
    (∀ (qty : ℤ) (base : ℚ) (tiers : List DiscountTier),
      (∀ t, (calculate_volume_discount qty base tiers).tier = some t →
        t ∈ tiers ∧ t.min_qty ≤ qty ∧
        (calculate_volume_discount qty base tiers).discount_percent =
          t.discount_percent ∧
        ∀ t' ∈ tiers, t'.min_qty ≤ qty → t'.min_qty ≤ t.min_qty) ∧
      ((calculate_volume_discount qty base tiers).tier = none →
        ∀ t' ∈ tiers, ¬ t'.min_qty ≤ qty)) ∧
    (∀ (qty : ℤ) (base : ℚ) (tiers1 tiers2 : List DiscountTier),
      tiers1.Perm tiers2 →
      tiers1.Pairwise (fun a b => a.min_qty ≠ b.min_qty) →
      calculate_volume_discount qty base tiers1 =
        calculate_volume_discount qty base tiers2) := by
  have htier : ∀ (qty : ℤ) (base : ℚ) (tiers : List DiscountTier),
      (calculate_volume_discount qty base tiers).tier = select_tier qty tiers :=
    fun _ _ _ => rfl
  refine ⟨?_, ?_, ?_⟩
  · norm_num [calculate_volume_discount, select_tier, tiersSortedDesc,
      List.insertionSort, List.orderedInsert, List.find?, pyRound2, roundHalfEven]
  · intro qty base tiers
    constructor
    · intro t ht
      rw [htier] at ht
      obtain ⟨hmem, happ, hmax⟩ := (select_tier_spec qty tiers).1 t ht
      refine ⟨hmem, happ, ?_, hmax⟩
      show ((select_tier qty tiers).map (fun t => t.discount_percent)).getD 0 =
        t.discount_percent
      rw [ht]
      rfl
    · intro ht
      rw [htier] at ht
      exact (select_tier_spec qty tiers).2 ht
  · intro qty base t1 t2 hperm hdist
    have hsel : select_tier qty t1 = select_tier qty t2 := by
      cases h1 : select_tier qty t1 with
      | none =>
        cases h2 : select_tier qty t2 with
        | none => rfl
        | some u =>
          obtain ⟨hmem, happ, _⟩ := (select_tier_spec qty t2).1 u h2
          exact absurd happ
            ((select_tier_spec qty t1).2 h1 u (hperm.mem_iff.mpr hmem))
      | some t =>
        cases h2 : select_tier qty t2 with
        | none =>
          obtain ⟨hmem, happ, _⟩ := (select_tier_spec qty t1).1 t h1
          exact absurd happ
            ((select_tier_spec qty t2).2 h2 t (hperm.mem_iff.mp hmem))
        | some u =>
          obtain ⟨hmem1, happ1, hmax1⟩ := (select_tier_spec qty t1).1 t h1
          obtain ⟨hmem2, happ2, hmax2⟩ := (select_tier_spec qty t2).1 u h2
          have hu1 : u ∈ t1 := hperm.mem_iff.mpr hmem2
          have ht2 : t ∈ t2 := hperm.mem_iff.mp hmem1
          have hle1 : u.min_qty ≤ t.min_qty := hmax1 u hu1 happ2
          have hle2 : t.min_qty ≤ u.min_qty := hmax2 t ht2 happ1
          have heqm : t.min_qty = u.min_qty := le_antisymm hle2 hle1
          have hsymm : Symmetric (fun a b : DiscountTier => a.min_qty ≠ b.min_qty) :=
            fun a b h heq => h heq.symm
          have heq : t = u := by
            by_contra hne
            exact (List.Pairwise.forall hsymm hdist hmem1 hu1 hne) heqm
          rw [heq]
    unfold calculate_volume_discount
    rw [hsel]

/-! ## Claim C8: monotonicity of calculate_order_quantity in target days -/

/-- Claim C8, as frozen, quantifies over every safety factor.  A negative
safety factor turns the required stock decreasing in target days, and with a
negative current stock the clamp at 0 does not mask it: target 1 orders 99
units but target 2 orders 98. -/
theorem claim_C8_counterexample :
    (1 : ℤ) ≤ 2 ∧
    (calculate_order_quantity (-100) 1 1 true (-1)).order_quantity = 99 ∧
    (calculate_order_quantity (-100) 1 2 true (-1)).order_quantity = 98 ∧
    ¬ (calculate_order_quantity (-100) 1 1 true (-1)).order_quantity ≤
        (calculate_order_quantity (-100) 1 2 true (-1)).order_quantity := by
  have hc99 : (⌈(99 : ℚ)⌉ : ℤ) = 99 := by norm_num [Int.ceil_eq_iff]
  have hc98 : (⌈(98 : ℚ)⌉ : ℤ) = 98 := by norm_num [Int.ceil_eq_iff]
  have h1 : (calculate_order_quantity (-100) 1 1 true (-1)).order_quantity = 99 := by
    norm_num [calculate_order_quantity, hc99]
  have h2 : (calculate_order_quantity (-100) 1 2 true (-1)).order_quantity = 98 := by
    norm_num [calculate_order_quantity, hc98]
  refine ⟨by norm_num, h1, h2, ?_⟩
  rw [h1, h2]
  norm_num

/-- Claim C8 amended: for every fixed current_stock, daily_demand, safety
setting and nonnegative safety factor, the order_quantity returned by
calculate_order_quantity is monotonically non-decreasing in
target_coverage_days. -/
theorem claim_C8_amended (current_stock daily_demand : ℚ) (include_safety_stock : Bool)
    (safety_factor : ℚ) (hsf : 0 ≤ safety_factor) (d1 d2 : ℤ) (hd : d1 ≤ d2) :
    (calculate_order_quantity current_stock daily_demand d1 include_safety_stock
        safety_factor).order_quantity ≤
      (calculate_order_quantity current_stock daily_demand d2 include_safety_stock
        safety_factor).order_quantity := by
  unfold calculate_order_quantity
  by_cases hg : daily_demand ≤ 0 ∨ daily_demand < 0.001
  · rw [if_pos hg, if_pos hg]
  · rw [if_neg hg, if_neg hg]
    push_neg at hg
    have hdpos : 0 < daily_demand := hg.1
    simp only
    have heff : 0 ≤ daily_demand * (if include_safety_stock then safety_factor else 1) := by
      cases include_safety_stock <;> simp <;> positivity
    have hreq :
        (if include_safety_stock then daily_demand * (d1 : ℚ) * safety_factor
          else daily_demand * (d1 : ℚ)) ≤
        (if include_safety_stock then daily_demand * (d2 : ℚ) * safety_factor
          else daily_demand * (d2 : ℚ)) := by
      have hcast : (d1 : ℚ) ≤ (d2 : ℚ) := by exact_mod_cast hd
      cases include_safety_stock
      · simpa using mul_le_mul_of_nonneg_left hcast (le_of_lt hdpos)
      · simp only [if_pos]
        calc daily_demand * (d1 : ℚ) * safety_factor
            = (d1 : ℚ) * (daily_demand * safety_factor) := by ring
          _ ≤ (d2 : ℚ) * (daily_demand * safety_factor) := by
              have : 0 ≤ daily_demand * safety_factor := by positivity
              exact mul_le_mul_of_nonneg_right hcast this
          _ = daily_demand * (d2 : ℚ) * safety_factor := by ring
    have hceil : ⌈(if include_safety_stock then daily_demand * (d1 : ℚ) * safety_factor
          else daily_demand * (d1 : ℚ)) - current_stock⌉ ≤
        ⌈(if include_safety_stock then daily_demand * (d2 : ℚ) * safety_factor
          else daily_demand * (d2 : ℚ)) - current_stock⌉ :=
      Int.ceil_mono (by linarith)
    exact max_le_max (le_refl 0) hceil

theorem claim_C8_witness :
    (0 : ℚ) ≤ 1.2 ∧ (7 : ℤ) ≤ 14 ∧
    (calculate_order_quantity 50 8 7 true 1.2).order_quantity ≤
      (calculate_order_quantity 50 8 14 true 1.2).order_quantity :=
  ⟨by norm_num, by norm_num,
    claim_C8_amended 50 8 true 1.2 (by norm_num) 7 14 (by norm_num)⟩

/-! ## Supplier, SupplierSchedule, PricingEngine, SupplierOptimizer
(supplier_engine.py)

A date is its integer day number; day 0 is a Monday, so day d has weekday
d mod 7 with 0 = Monday .. 6 = Sunday, matching datetime.weekday.  The
pricing store (sku -> supplier -> price nested dictionaries) is an
association list looked up by (sku, supplier); set_price overwrites an
existing entry.  The recommendation reason string attached to the top
option is presentation text and is not modelled. -/

structure Supplier where
  id : String
  name : String
  order_days : List ℤ
  lead_time_days : ℤ
  cutoff_time : String
  reliability : ℚ
  notes : String
deriving DecidableEq

def can_order_today (s : Supplier) (date : ℤ) : Bool :=
  decide ((date % 7) ∈ s.order_days)

def next_order_date (s : Supplier) (from_date : ℤ) : ℤ :=
  if can_order_today s from_date then from_date
  else
    match (List.range' 1 7).find? (fun i => can_order_today s (from_date + (i : ℤ))) with
    | some i => from_date + (i : ℤ)
    | none => from_date + 7

def delivery_date (s : Supplier) (order_date : ℤ) : ℤ :=
  order_date + s.lead_time_days

/-- The default catalog built by SupplierSchedule._init_default_suppliers,
in dictionary insertion order. -/
def asgeto : Supplier :=
  { id := "asgeto", name := "Asgeto", order_days := [0, 1, 2, 3, 4, 5, 6],
    lead_time_days := 2, cutoff_time := "14:00", reliability := 0.95,
    notes := "Available 7 days a week" }

def santefarm : Supplier :=
  { id := "santefarm", name := "Santefarm", order_days := [0, 1, 2, 3, 4],
    lead_time_days := 3, cutoff_time := "12:00", reliability := 0.92,
    notes := "Mon-Fri only, longer lead time but often cheaper" }

def default_suppliers : List Supplier := [asgeto, santefarm]

def get_supplier (schedule : List Supplier) (supplier_id : String) : Option Supplier :=
  schedule.find? (fun s => s.id == supplier_id)

abbrev PriceMap := List (String × String × ℚ)

def get_price (pm : PriceMap) (sku supplier_id : String) : Option ℚ :=
  (pm.find? (fun e => e.1 == sku && e.2.1 == supplier_id)).map (fun e => e.2.2)

def set_price (pm : PriceMap) (sku supplier_id : String) (price : ℚ) : PriceMap :=
  if pm.any (fun e => e.1 == sku && e.2.1 == supplier_id) then
    pm.map (fun e => if e.1 == sku && e.2.1 == supplier_id
      then (sku, supplier_id, price) else e)
  else pm ++ [(sku, supplier_id, price)]

structure SupplierOption where
  supplier_id : String
  supplier_name : String
  order_date : ℤ
  delivery_date : ℤ
  days_until_order : ℤ
  days_until_delivery : ℤ
  unit_price : ℚ
  quantity : ℤ
  total_cost : ℚ
  risk : Risk
  reliability : ℚ
  score : ℚ
  can_order_today : Bool
  notes : String
  recommended : Bool
deriving DecidableEq

/-- The loop body of find_optimal_supplier for one supplier with a known
price.  The risk call uses the default safety factor 1.2; recommended
starts false (the key is added only later, to the top-ranked option). -/
def build_option (s : Supplier) (price : ℚ) (current_stock daily_demand : ℚ)
    (order_quantity : ℤ) (from_date : ℤ) : SupplierOption :=
  let order_date := next_order_date s from_date
  let delivery := delivery_date s order_date
  let days_until_order := order_date - from_date
  let days_until_delivery := delivery - from_date
  let total_cost := price * (order_quantity : ℚ)
  let risk := calculate_risk current_stock daily_demand days_until_delivery 1.2
  let risk_penalty := risk.score * 1000
  let cost_score := total_cost
  let reliability_penalty := (1 - s.reliability) * 100
  let total_score := risk_penalty + cost_score + reliability_penalty
  { supplier_id := s.id, supplier_name := s.name, order_date := order_date,
    delivery_date := delivery, days_until_order := days_until_order,
    days_until_delivery := days_until_delivery, unit_price := price,
    quantity := order_quantity, total_cost := total_cost, risk := risk,
    reliability := s.reliability, score := total_score,
    can_order_today := can_order_today s from_date, notes := s.notes,
    recommended := false }

/-- options[0]['recommended'] = True after the sort. -/
def tag_recommended : List SupplierOption → List SupplierOption
  | [] => []
  | o :: rest => { o with recommended := true } :: rest

def find_optimal_supplier (schedule : List Supplier) (pricing : PriceMap) (sku : String)
    (current_stock daily_demand : ℚ) (order_quantity : ℤ) (from_date : ℤ)
    (available_suppliers : Option (List String)) : List SupplierOption :=
  let suppliers :=
    match available_suppliers with
    | none => schedule
    | some ids => (ids.map (fun sid => get_supplier schedule sid)).reduceOption
  if suppliers.isEmpty then []
  else
    let options := suppliers.filterMap (fun s =>
      (get_price pricing sku s.id).map (fun price =>
        build_option s price current_stock daily_demand order_quantity from_date))
    tag_recommended (List.insertionSort (fun a b => a.score ≤ b.score) options)

theorem map_sid_tag_recommended (l : List SupplierOption) :
    (tag_recommended l).map (fun o => o.supplier_id) = l.map (fun o => o.supplier_id) := by
  cases l <;> rfl

theorem build_option_supplier_id (s : Supplier) (price : ℚ) (cs dd : ℚ) (oq fd : ℤ) :
    (build_option s price cs dd oq fd).supplier_id = s.id := rfl

theorem build_option_recommended (s : Supplier) (price : ℚ) (cs dd : ℚ) (oq fd : ℤ) :
    (build_option s price cs dd oq fd).recommended = false := rfl

theorem map_sid_filterMap (schedule : List Supplier) (pricing : PriceMap) (sku : String)
    (cs dd : ℚ) (oq fd : ℤ) :
    ((schedule.filterMap (fun s => (get_price pricing sku s.id).map (fun price =>
        build_option s price cs dd oq fd))).map (fun o => o.supplier_id)) =
      ((schedule.filter (fun s => (get_price pricing sku s.id).isSome)).map
        (fun s => s.id)) := by
  induction schedule with
  | nil => rfl
  | cons s rest ih =>
    cases hp : get_price pricing sku s.id with
    | none => simp [List.filterMap_cons, List.filter_cons, hp, ih]
    | some price =>
      simp [List.filterMap_cons, List.filter_cons, hp, ih, build_option_supplier_id]

/-- Claim C6 confirmed: for every candidate supplier list and every pricing
table, the supplier ids of the options returned by find_optimal_supplier are
exactly (as a multiset) the ids of the candidates holding a price for the
sku; a supplier without a price contributes nothing. -/
theorem claim_C6 (schedule : List Supplier) (pricing : PriceMap) (sku : String)
    (current_stock daily_demand : ℚ) (order_quantity from_date : ℤ) :
    ((find_optimal_supplier schedule pricing sku current_stock daily_demand
        order_quantity from_date none).map (fun o => o.supplier_id)).Perm
      ((schedule.filter (fun s => (get_price pricing sku s.id).isSome)).map
        (fun s => s.id)) := by
  simp only [find_optimal_supplier]
  by_cases hemp : schedule.isEmpty
  · have hnil : schedule = [] := List.isEmpty_iff.mp hemp
    subst hnil
    simp
  · rw [if_neg hemp, map_sid_tag_recommended]
    have hperm := (List.perm_insertionSort (fun a b : SupplierOption => a.score ≤ b.score)
      (schedule.filterMap (fun s => (get_price pricing sku s.id).map (fun price =>
        build_option s price current_stock daily_demand order_quantity from_date))))
    refine (hperm.map (fun o => o.supplier_id)).trans ?_
    rw [map_sid_filterMap]

theorem tag_recommended_spec (options : List SupplierOption)
    (hrec : ∀ o ∈ options, o.recommended = false) :
    (tag_recommended (List.insertionSort (fun a b => a.score ≤ b.score)
        options)).Pairwise (fun a b => a.score ≤ b.score) ∧
    (tag_recommended (List.insertionSort (fun a b => a.score ≤ b.score)
        options)).countP (fun o => o.recommended) =
      min 1 (tag_recommended (List.insertionSort (fun a b => a.score ≤ b.score)
        options)).length ∧
    (tag_recommended (List.insertionSort (fun a b => a.score ≤ b.score)
        options)).head?.all (fun o => o.recommended) = true := by
  have hsorted : (List.insertionSort (fun a b : SupplierOption => a.score ≤ b.score)
      options).Sorted (fun a b => a.score ≤ b.score) := by
    haveI : IsTotal SupplierOption (fun a b => a.score ≤ b.score) :=
      ⟨fun a b => le_total a.score b.score⟩
    haveI : IsTrans SupplierOption (fun a b => a.score ≤ b.score) :=
      ⟨fun _ _ _ => le_trans⟩
    exact List.sorted_insertionSort _ _
  have hrecl : ∀ o ∈ List.insertionSort (fun a b : SupplierOption => a.score ≤ b.score)
      options, o.recommended = false := fun o ho =>
    hrec o ((List.perm_insertionSort _ _).mem_iff.mp ho)
  cases hl : List.insertionSort (fun a b : SupplierOption => a.score ≤ b.score)
      options with
  | nil => simp [tag_recommended]
  | cons o rest =>
    rw [hl] at hsorted hrecl
    rw [List.sorted_cons] at hsorted
    refine ⟨?_, ?_, ?_⟩
    · rw [tag_recommended, List.pairwise_cons]
      exact ⟨fun a' ha' => hsorted.1 a' ha', hsorted.2⟩
    · have hz : rest.countP (fun o => o.recommended) = 0 :=
        List.countP_eq_zero.mpr (fun a ha => by
          simp [hrecl a (List.mem_cons_of_mem _ ha)])
      simp [tag_recommended, List.countP_cons, hz, Nat.min_def]
    · simp [tag_recommended]

/-- Claim C7 confirmed: the option list returned by find_optimal_supplier is
sorted in non-decreasing score order, and the recommended flag is set on
exactly one option when the list is non-empty (countP = min 1 length),
namely the head of the sorted order. -/
theorem claim_C7 (schedule : List Supplier) (pricing : PriceMap) (sku : String)
    (current_stock daily_demand : ℚ) (order_quantity from_date : ℤ)
    (available_suppliers : Option (List String)) :
    (find_optimal_supplier schedule pricing sku current_stock daily_demand
        order_quantity from_date available_suppliers).Pairwise
      (fun a b => a.score ≤ b.score) ∧
    (find_optimal_supplier schedule pricing sku current_stock daily_demand
        order_quantity from_date available_suppliers).countP
      (fun o => o.recommended) =
      min 1 (find_optimal_supplier schedule pricing sku current_stock daily_demand
        order_quantity from_date available_suppliers).length ∧
    (find_optimal_supplier schedule pricing sku current_stock daily_demand
        order_quantity from_date available_suppliers).head?.all
      (fun o => o.recommended) = true := by
  simp only [find_optimal_supplier]
  generalize (match available_suppliers with
    | none => schedule
    | some ids => (ids.map (fun sid => get_supplier schedule sid)).reduceOption) =
    suppliers
  by_cases hemp : suppliers.isEmpty
  · rw [if_pos hemp]
    simp
  · rw [if_neg hemp]
    apply tag_recommended_spec
    intro o ho
    obtain ⟨s, _, heq⟩ := List.mem_filterMap.mp ho
    obtain ⟨price, _, hbuild⟩ := Option.map_eq_some'.mp heq
    rw [← hbuild]
    exact build_option_recommended s price current_stock daily_demand
      order_quantity from_date

/-! ## CoverageCalculator.compare_suppliers_coverage (coverage_calculator.py)

The comparison dictionaries initially lack the savings, savings_percent
and is_cheapest keys (modelled as 0 / 0 / false); the second pass after the
in-place sort fills all three, so every returned entry carries final
values. -/

structure SupplierComparison where
  supplier_id : String
  unit_price : ℚ
  order_quantity : ℤ
  total_cost : ℚ
  coverage_days : ℤ
  final_stock : ℚ
  savings : ℚ
  savings_percent : ℚ
  is_cheapest : Bool
deriving DecidableEq

/-- max(c['total_cost'] for c in comparisons), on a non-empty list. -/
def maxTotalCost : List SupplierComparison → ℚ
  | [] => 0
  | c :: rest => rest.foldl (fun m c' => max m c'.total_cost) c.total_cost

/-- The body of the savings loop: comparisons[0] is the post-sort head, whose
total cost is first_cost. -/
def fill_comparison (max_cost first_cost : ℚ) (c : SupplierComparison) :
    SupplierComparison :=
  let savings := pyRound2 (max_cost - c.total_cost)
  { c with
    savings := savings,
    savings_percent := if max_cost > 0 then pyRound1 (savings / max_cost * 100) else 0,
    is_cheapest := decide (c.total_cost = first_cost) }

/-- The if-comparisons block after the sort: on an empty list nothing
happens, otherwise every entry gets savings vs the maximum cost and the
cheapest flag vs the head. -/
def compare_finalize : List SupplierComparison → List SupplierComparison
  | [] => []
  | first :: rest =>
    (first :: rest).map (fill_comparison (maxTotalCost (first :: rest)) first.total_cost)

def compare_suppliers_coverage (current_stock daily_demand : ℚ) (coverage_days : ℤ)
    (supplier_prices : List (String × ℚ)) : List SupplierComparison :=
  let calcq := calculate_order_quantity current_stock daily_demand coverage_days true 1.2
  let order_quantity := calcq.order_quantity
  let comparisons := supplier_prices.map (fun sp =>
    ({ supplier_id := sp.1, unit_price := sp.2, order_quantity := order_quantity,
       total_cost := pyRound2 ((order_quantity : ℚ) * sp.2),
       coverage_days := coverage_days, final_stock := calcq.final_stock,
       savings := 0, savings_percent := 0, is_cheapest := false } : SupplierComparison))
  compare_finalize
    (List.insertionSort (fun a b => a.total_cost ≤ b.total_cost) comparisons)

def isHundredth (q : ℚ) : Prop := ∃ k : ℤ, q = (k : ℚ) / 100

theorem pyRound2_isHundredth (q : ℚ) : isHundredth (pyRound2 q) :=
  ⟨roundHalfEven (q * 100), rfl⟩

theorem pyRound2_sub_self {a b : ℚ} (ha : isHundredth a) (hb : isHundredth b) :
    pyRound2 (a - b) = a - b := by
  obtain ⟨k1, rfl⟩ := ha
  obtain ⟨k2, rfl⟩ := hb
  rw [show ((k1 : ℚ) / 100 - (k2 : ℚ) / 100) = ((k1 - k2 : ℤ) : ℚ) / 100 by
    push_cast; ring]
  rw [pyRound2_hundredth]

theorem foldl_max_hundredth :
    ∀ (l : List SupplierComparison) (a : ℚ), isHundredth a →
      (∀ c ∈ l, isHundredth c.total_cost) →
      isHundredth (l.foldl (fun m c' => max m c'.total_cost) a) := by
  intro l
  induction l with
  | nil => intro a ha _; exact ha
  | cons x l ih =>
    intro a ha hl
    rw [List.foldl_cons]
    apply ih
    · rcases max_choice a x.total_cost with h | h <;> rw [h]
      · exact ha
      · exact hl x (List.mem_cons_self x l)
    · exact fun c hc => hl c (List.mem_cons_of_mem _ hc)

theorem foldl_max_init_le :
    ∀ (l : List SupplierComparison) (a : ℚ),
      a ≤ l.foldl (fun m c' => max m c'.total_cost) a := by
  intro l
  induction l with
  | nil => intro a; exact le_refl a
  | cons x l ih =>
    intro a
    rw [List.foldl_cons]
    exact le_trans (le_max_left a x.total_cost) (ih (max a x.total_cost))

theorem mem_le_foldl_max :
    ∀ (l : List SupplierComparison) (a : ℚ) (c : SupplierComparison), c ∈ l →
      c.total_cost ≤ l.foldl (fun m c' => max m c'.total_cost) a := by
  intro l
  induction l with
  | nil => intro a c hc; exact absurd hc (List.not_mem_nil c)
  | cons x l ih =>
    intro a c hc
    rw [List.foldl_cons]
    rcases List.mem_cons.mp hc with h | h
    · subst h
      exact le_trans (le_max_right a c.total_cost) (foldl_max_init_le l _)
    · exact ih (max a x.total_cost) c h

theorem foldl_max_map_fill (M F : ℚ) :
    ∀ (l : List SupplierComparison) (a : ℚ),
      (l.map (fill_comparison M F)).foldl (fun m c' => max m c'.total_cost) a =
        l.foldl (fun m c' => max m c'.total_cost) a := by
  intro l
  induction l with
  | nil => intro a; rfl
  | cons x l ih =>
    intro a
    rw [List.map_cons, List.foldl_cons, List.foldl_cons]
    exact ih (max a x.total_cost)

theorem compare_finalize_spec (l : List SupplierComparison)
    (hsorted : l.Sorted (fun a b => a.total_cost ≤ b.total_cost))
    (hh : ∀ c ∈ l, isHundredth c.total_cost) :
    (∀ e ∈ compare_finalize l,
      e.savings = maxTotalCost (compare_finalize l) - e.total_cost) ∧
    (∀ e ∈ compare_finalize l, (e.is_cheapest = true ↔
      ∀ e' ∈ compare_finalize l, e.total_cost ≤ e'.total_cost)) := by
  cases l with
  | nil => simp [compare_finalize]
  | cons first rest =>
    have hfill_cost : ∀ (M F : ℚ) (c : SupplierComparison),
        (fill_comparison M F c).total_cost = c.total_cost := by
      intro M F c; rfl
    have hfill_savings : ∀ (M F : ℚ) (c : SupplierComparison),
        (fill_comparison M F c).savings = pyRound2 (M - c.total_cost) := by
      intro M F c; rfl
    have hfill_cheap : ∀ (M F : ℚ) (c : SupplierComparison),
        (fill_comparison M F c).is_cheapest = decide (c.total_cost = F) := by
      intro M F c; rfl
    have hfin : compare_finalize (first :: rest) =
        (first :: rest).map
          (fill_comparison (maxTotalCost (first :: rest)) first.total_cost) := rfl
    have hmax_eq : maxTotalCost (compare_finalize (first :: rest)) =
        maxTotalCost (first :: rest) := by
      rw [hfin, List.map_cons]
      show (rest.map _).foldl _ (fill_comparison _ _ first).total_cost = _
      rw [hfill_cost]
      exact foldl_max_map_fill _ _ rest first.total_cost
    have hbound : ∀ c ∈ first :: rest, c.total_cost ≤ maxTotalCost (first :: rest) := by
      intro c hc
      rcases List.mem_cons.mp hc with h | h
      · subst h
        exact foldl_max_init_le rest c.total_cost
      · exact mem_le_foldl_max rest first.total_cost c h
    have hfirstle : ∀ c ∈ first :: rest, first.total_cost ≤ c.total_cost := by
      intro c hc
      rcases List.mem_cons.mp hc with h | h
      · subst h; exact le_refl c.total_cost
      · exact (List.sorted_cons.mp hsorted).1 c h
    have hMh : isHundredth (maxTotalCost (first :: rest)) :=
      foldl_max_hundredth rest first.total_cost
        (hh first (List.mem_cons_self first rest))
        (fun c hc => hh c (List.mem_cons_of_mem _ hc))
    constructor
    · intro e he
      rw [hfin] at he
      obtain ⟨c, hc, rfl⟩ := List.mem_map.mp he
      rw [hmax_eq, hfill_savings, hfill_cost]
      exact pyRound2_sub_self hMh (hh c hc)
    · intro e he
      rw [hfin] at he
      obtain ⟨c, hc, rfl⟩ := List.mem_map.mp he
      rw [hfill_cheap]
      constructor
      · intro hcheap e' he'
        rw [hfin] at he'
        obtain ⟨c', hc', rfl⟩ := List.mem_map.mp he'
        rw [hfill_cost, hfill_cost]
        have hceq : c.total_cost = first.total_cost := of_decide_eq_true hcheap
        rw [hceq]
        exact hfirstle c' hc'
      · intro hmin
        have h1 : c.total_cost ≤ first.total_cost := by
          have hmem : fill_comparison (maxTotalCost (first :: rest)) first.total_cost
              first ∈ compare_finalize (first :: rest) := by
            rw [hfin]
            exact List.mem_map_of_mem _ (List.mem_cons_self first rest)
          have := hmin _ hmem
          rw [hfill_cost, hfill_cost] at this
          exact this
        have h2 : first.total_cost ≤ c.total_cost := hfirstle c hc
        rw [le_antisymm h1 h2]
        exact decide_eq_true rfl

/-- Claim C10 confirmed: in every result of compare_suppliers_coverage, each
entry's savings equals the maximum total_cost of the result minus the entry's
total_cost, and is_cheapest is true exactly for the entries whose total_cost
is minimal in the result, so cost ties are all flagged. -/
theorem claim_C10 (current_stock daily_demand : ℚ) (coverage_days : ℤ)
    (supplier_prices : List (String × ℚ)) :
    (∀ e ∈ compare_suppliers_coverage current_stock daily_demand coverage_days
        supplier_prices,
      e.savings = maxTotalCost (compare_suppliers_coverage current_stock daily_demand
        coverage_days supplier_prices) - e.total_cost) ∧
    (∀ e ∈ compare_suppliers_coverage current_stock daily_demand coverage_days
        supplier_prices, (e.is_cheapest = true ↔
      ∀ e' ∈ compare_suppliers_coverage current_stock daily_demand coverage_days
        supplier_prices, e.total_cost ≤ e'.total_cost)) := by
  have hsorted : (List.insertionSort
      (fun a b : SupplierComparison => a.total_cost ≤ b.total_cost)
      (supplier_prices.map (fun sp =>
        ({ supplier_id := sp.1, unit_price := sp.2,
           order_quantity := (calculate_order_quantity current_stock daily_demand
             coverage_days true 1.2).order_quantity,
           total_cost := pyRound2 (((calculate_order_quantity current_stock daily_demand
             coverage_days true 1.2).order_quantity : ℚ) * sp.2),
           coverage_days := coverage_days,
           final_stock := (calculate_order_quantity current_stock daily_demand
             coverage_days true 1.2).final_stock,
           savings := 0, savings_percent := 0,
           is_cheapest := false } : SupplierComparison)))).Sorted
      (fun a b => a.total_cost ≤ b.total_cost) := by
    haveI : IsTotal SupplierComparison (fun a b => a.total_cost ≤ b.total_cost) :=
      ⟨fun a b => le_total a.total_cost b.total_cost⟩
    haveI : IsTrans SupplierComparison (fun a b => a.total_cost ≤ b.total_cost) :=
      ⟨fun _ _ _ => le_trans⟩
    exact List.sorted_insertionSort _ _
  have hh : ∀ c ∈ List.insertionSort
      (fun a b : SupplierComparison => a.total_cost ≤ b.total_cost)
      (supplier_prices.map (fun sp =>
        ({ supplier_id := sp.1, unit_price := sp.2,
           order_quantity := (calculate_order_quantity current_stock daily_demand
             coverage_days true 1.2).order_quantity,
           total_cost := pyRound2 (((calculate_order_quantity current_stock daily_demand
             coverage_days true 1.2).order_quantity : ℚ) * sp.2),
           coverage_days := coverage_days,
           final_stock := (calculate_order_quantity current_stock daily_demand
             coverage_days true 1.2).final_stock,
           savings := 0, savings_percent := 0,
           is_cheapest := false } : SupplierComparison))),
      isHundredth c.total_cost := by
    intro c hc
    have hc2 := (List.perm_insertionSort _ _).mem_iff.mp hc
    obtain ⟨sp, _, rfl⟩ := List.mem_map.mp hc2
    exact pyRound2_isHundredth _
  simp only [compare_suppliers_coverage]
  exact compare_finalize_spec _ hsorted hh
